import Mathlib

/-!
Verification development for the wmi_exporter collectors.

The Go sources embedded here (shallowly) are:
* `collector/smart.go` — the vendor-specific SMART attribute byte-table
  decoder (`SMARTCollector.collect`);
* `collector/dfsr.go` — the composite DFSR collector: source-list
  expansion, the concurrent child fan-out with its shared failure
  counter, and the per-child duration/success meta-samples;
* the network collector (`NetworkCollector.collect`) — whitelist /
  blacklist instance filtering and name mangling;
* `collector/container.go` — the container collector
  (`ContainerMetricsCollector.collect`).

Machine integers: every Go value handled by the modelled code paths is a
`uint8` byte, a non-negative counter value that is only passed through, or a
small loop counter; no modelled operation can overflow or go negative, so
all of them are embedded as `Nat`.  Go slice indexing is embedded by a
checked read returning `Option` (`none` is the runtime out-of-range panic).
Fallible operations return `Except`.
-/

namespace WmiExporter

/-- Go slice indexing `xs[j]` on a byte slice: `some` of the byte when the
index is in range, `none` for the runtime panic on an out-of-range index. -/
def checkedGet (xs : List Nat) (j : Nat) : Option Nat :=
  if j < xs.length then some (xs.getD j 0) else none

/-! ### SMART attribute decoder (`SMARTCollector.collect`, smart.go 155-421)

One 13-byte window of `disk.VendorSpecific`, read at a record start `i`:
offsets `i+3` (attribute id), `i+6`/`i+7` (normalized/worst value) and
`i+8`..`i+12` (raw-value bytes).  The Go locals `i3, i6, i7, i8, ..., i12`
are `uint8` variables zero-initialised by their declaration; `i8`..`i12`
keep that zero when `len(disk.VendorSpecific) >= i+12` fails. -/

structure SmartRecord where
  i3 : Nat
  i6 : Nat
  i7 : Nat
  i8 : Nat
  i9 : Nat
  i10 : Nat
  i11 : Nat
  i12 : Nat
deriving DecidableEq

/-- The `vendec` computation of smart.go 179-191, written exactly as in the
source.  Go's `^` operator is bitwise XOR (not exponentiation), so the
weights really are `16 ^^^ 8 = 24`, `16 ^^^ 6 = 22`, `16 ^^^ 4 = 20` and
`16 ^^^ 2 = 18`. -/
def smartVendec (i3 i8 i9 i10 i11 i12 : Nat) : Nat :=
  if i3 = 4 ∨ i3 = 9 ∨ i3 = 193 ∨ i3 = 195 ∨ i3 = 200 ∨ i3 = 225 ∨
      i3 = 241 ∨ i3 = 242 ∨ i3 = 246 then
    -- "for those attributes where values up to 65k is not enough"
    i12 * (16 ^^^ 8) + i11 * (16 ^^^ 6) + i10 * (16 ^^^ 4) + i9 * (16 ^^^ 2) + i8
  else if i3 = 194 then
    -- "temperature is using only one field"
    i8
  else
    -- "some attributes like id3 are using only 2 fields"
    i9 * (16 ^^^ 2) + i8

/-- The raw-value reconstruction as the specification words it (little-endian
positional bytes; §4.6 and claim C3), for comparison with `smartVendec`.
This is the one definition in the file written from the spec's words rather
than from the source. -/
def specRawValue (i3 i8 i9 i10 i11 i12 : Nat) : Nat :=
  if i3 = 4 ∨ i3 = 9 ∨ i3 = 193 ∨ i3 = 195 ∨ i3 = 200 ∨ i3 = 225 ∨
      i3 = 241 ∨ i3 = 242 ∨ i3 = 246 then
    i8 + 2 ^ 8 * i9 + 2 ^ 16 * i10 + 2 ^ 24 * i11 + 2 ^ 32 * i12
  else if i3 = 194 then
    i8
  else
    i8 + 2 ^ 8 * i9

/-- The record-scanning loop of smart.go 155-421 (`for i := 0; i <
len(disk.VendorSpecific); i += 12`), collecting the byte fields of every
record that is decoded.  `fuel` bounds the number of iterations (each call
advances `i` by 12, so `xs.length + 1` is always enough).  A result of
`none` is a Go runtime panic from an out-of-range slice index; `some rs` is
normal termination having decoded the records `rs` in scan order.
Returning `some []` inside the loop models the `break` on a truncated
trailing record. -/
def smartDecodeAux (xs : List Nat) : Nat → Nat → Option (List SmartRecord)
  | 0, _ => some []
  | fuel + 1, i =>
    if i < xs.length then
      match checkedGet xs i with
      | none => none
      | some v =>
        if v = 0 ∨ v = 16 then
          if xs.length < i + 7 then
            some []
          else
            match checkedGet xs (i + 1) with
            | none => none
            | some v1 =>
              if v1 ≠ 0 then
                -- "unexpected smart": record skipped, scanning continues
                smartDecodeAux xs fuel (i + 12)
              else
                match checkedGet xs (i + 3), checkedGet xs (i + 6),
                    checkedGet xs (i + 7) with
                | some a3, some a6, some a7 =>
                  if xs.length ≥ i + 12 then
                    match checkedGet xs (i + 8), checkedGet xs (i + 9),
                        checkedGet xs (i + 10), checkedGet xs (i + 11),
                        checkedGet xs (i + 12) with
                    | some a8, some a9, some a10, some a11, some a12 =>
                      (smartDecodeAux xs fuel (i + 12)).map
                        (fun rest => ⟨a3, a6, a7, a8, a9, a10, a11, a12⟩ :: rest)
                    | _, _, _, _, _ => none
                  else
                    (smartDecodeAux xs fuel (i + 12)).map
                      (fun rest => ⟨a3, a6, a7, 0, 0, 0, 0, 0⟩ :: rest)
                | _, _, _ => none
        else
          smartDecodeAux xs fuel (i + 12)
    else
      some []

/-- Scan a whole `VendorSpecific` byte slice. -/
def smartDecode (xs : List Nat) : Option (List SmartRecord) :=
  smartDecodeAux xs (xs.length + 1) 0

/-- The per-disk accumulator variables of smart.go 117-153 that the
attribute switch (smart.go 193-418) assigns.  `poh` is a `float64` in Go,
but with the hard-coded `poharg := "hour"` only the branch `poh =
float64(vendec)` ever runs, so it is embedded as the exact `Nat`. -/
structure SmartDiskState where
  rawreaderror : Nat
  attrcriterror : Nat
  hddattrcriterror : Nat
  dmacrcerror : Nat
  softreaderror : Nat
  programfailcount : Nat
  erasefailcount : Nat
  programfailcount2 : Nat
  erasefailcount2 : Nat
  spinavg : Nat
  reallocatedsectors : Nat
  spinretry : Nat
  reserveblocks : Nat
  endtoend : Nat
  commandtimeout : Nat
  lifetimeremain : Nat
  lbawrite : Nat
  reallocationevent : Nat
  pendingsectors : Nat
  uncorrectablesectors : Nat
  temperature : Nat
  tempmax : Nat
  tempmin : Nat
  poh : Nat
deriving DecidableEq

/-- All accumulator variables start at zero (`:= 0` in the Go source). -/
def initSmartState : SmartDiskState :=
  ⟨0, 0, 0, 0, 0, 0, 0, 0, 0, 0, 0, 0, 0, 0, 0, 0, 0, 0, 0, 0, 0, 0, 0, 0⟩

/-- The attribute-id switch of smart.go 193-418, one decoded record at a
time.  Each branch mirrors the corresponding `case` of the Go `switch i3`. -/
def applySmartRecord (st : SmartDiskState) (r : SmartRecord) : SmartDiskState :=
  let vendec := smartVendec r.i3 r.i8 r.i9 r.i10 r.i11 r.i12
  if r.i3 = 1 then
    { st with rawreaderror := vendec,
              attrcriterror := if r.i6 ≤ 50 ∨ r.i7 ≤ 50 then st.attrcriterror + 1
                               else st.attrcriterror }
  else if r.i3 = 3 then
    { st with spinavg := r.i11 * (16 ^^^ 2) + r.i10,
              attrcriterror := if r.i6 ≤ 50 ∨ r.i7 ≤ 50 then st.attrcriterror + 1
                               else st.attrcriterror }
  else if r.i3 = 5 then
    { st with reallocatedsectors := vendec,
              hddattrcriterror := if vendec > 0 then st.hddattrcriterror + 1
                                  else st.hddattrcriterror,
              attrcriterror := if r.i6 ≤ 10 ∨ r.i7 ≤ 10 then st.attrcriterror + 1
                               else st.attrcriterror }
  else if r.i3 = 7 then
    { st with attrcriterror := if r.i6 ≤ 60 ∨ r.i7 ≤ 60 then st.attrcriterror + 1
                               else st.attrcriterror }
  else if r.i3 = 9 then
    { st with poh := vendec }
  else if r.i3 = 10 then
    { st with spinretry := vendec,
              attrcriterror := if vendec > 0 then st.attrcriterror + 1
                               else st.attrcriterror }
  else if r.i3 = 170 then
    { st with attrcriterror := if r.i6 ≤ 10 ∨ r.i7 ≤ 10 then st.attrcriterror + 1
                               else st.attrcriterror,
              reserveblocks := vendec }
  else if r.i3 = 171 then
    { st with programfailcount := vendec,
              hddattrcriterror := if vendec > 0 then st.hddattrcriterror + 1
                                  else st.hddattrcriterror,
              attrcriterror := if r.i6 ≤ 10 ∨ r.i7 ≤ 10 then st.attrcriterror + 1
                               else st.attrcriterror }
  else if r.i3 = 172 then
    { st with erasefailcount := vendec,
              hddattrcriterror := if vendec > 0 then st.hddattrcriterror + 1
                                  else st.hddattrcriterror,
              attrcriterror := if r.i6 ≤ 10 ∨ r.i7 ≤ 10 then st.attrcriterror + 1
                               else st.attrcriterror }
  else if r.i3 = 173 then
    { st with attrcriterror := if r.i6 ≤ 10 ∨ r.i7 ≤ 10 then st.attrcriterror + 1
                               else st.attrcriterror }
  else if r.i3 = 177 then
    { st with attrcriterror := if r.i6 ≤ 10 ∨ r.i7 ≤ 10 then st.attrcriterror + 1
                               else st.attrcriterror }
  else if r.i3 = 179 then
    { st with attrcriterror := if r.i6 ≤ 10 ∨ r.i7 ≤ 10 then st.attrcriterror + 1
                               else st.attrcriterror }
  else if r.i3 = 180 then
    { st with reserveblocks := vendec }
  else if r.i3 = 181 then
    { st with programfailcount2 := vendec,
              hddattrcriterror := if vendec > 0 then st.hddattrcriterror + 1
                                  else st.hddattrcriterror,
              attrcriterror := if r.i6 ≤ 10 ∨ r.i7 ≤ 10 then st.attrcriterror + 1
                               else st.attrcriterror }
  else if r.i3 = 182 then
    { st with erasefailcount2 := vendec,
              hddattrcriterror := if vendec > 0 then st.hddattrcriterror + 1
                                  else st.hddattrcriterror,
              attrcriterror := if r.i6 ≤ 10 ∨ r.i7 ≤ 10 then st.attrcriterror + 1
                               else st.attrcriterror }
  else if r.i3 = 183 then
    { st with attrcriterror := if r.i6 ≤ 10 ∨ r.i7 ≤ 10 then st.attrcriterror + 1
                               else st.attrcriterror }
  else if r.i3 = 184 then
    -- two independent increments of attrcriterror in this case
    { st with endtoend := vendec,
              attrcriterror :=
                (if vendec > 0 then st.attrcriterror + 1 else st.attrcriterror) +
                  (if r.i6 ≤ 50 ∨ r.i7 ≤ 50 then 1 else 0) }
  else if r.i3 = 188 then
    { st with commandtimeout := vendec,
              attrcriterror := if vendec > 0 then st.attrcriterror + 1
                               else st.attrcriterror }
  else if r.i3 = 194 then
    { st with temperature := vendec,
              tempmin := r.i10,
              tempmax := r.i12 }
  else if r.i3 = 196 then
    { st with reallocationevent := vendec,
              hddattrcriterror := if vendec > 0 then st.hddattrcriterror + 1
                                  else st.hddattrcriterror }
  else if r.i3 = 197 then
    { st with pendingsectors := vendec,
              attrcriterror := if vendec > 0 then st.attrcriterror + 1
                               else st.attrcriterror }
  else if r.i3 = 198 then
    { st with uncorrectablesectors := vendec,
              attrcriterror := if vendec > 0 then st.attrcriterror + 1
                               else st.attrcriterror }
  else if r.i3 = 199 then
    { st with dmacrcerror := vendec,
              attrcriterror := if vendec > 0 then st.attrcriterror + 1
                               else st.attrcriterror }
  else if r.i3 = 200 then
    { st with attrcriterror := if r.i6 ≤ 99 ∨ r.i7 ≤ 99 then st.attrcriterror + 1
                               else st.attrcriterror }
  else if r.i3 = 201 then
    { st with softreaderror := vendec,
              attrcriterror := if vendec > 0 then st.attrcriterror + 1
                               else st.attrcriterror }
  else if r.i3 = 202 then
    { st with lifetimeremain := r.i6,
              attrcriterror := if r.i6 ≤ 10 ∨ r.i7 ≤ 10 then st.attrcriterror + 1
                               else st.attrcriterror }
  else if r.i3 = 225 then
    { st with lbawrite := vendec }
  else if r.i3 = 226 then
    { st with attrcriterror := if r.i6 ≤ 10 ∨ r.i7 ≤ 10 then st.attrcriterror + 1
                               else st.attrcriterror }
  else if r.i3 = 230 then
    { st with attrcriterror := if r.i7 ≤ 90 then st.attrcriterror + 1
                               else st.attrcriterror }
  else if r.i3 = 231 then
    { st with lifetimeremain := r.i6,
              attrcriterror := if r.i6 ≤ 10 ∨ r.i7 ≤ 10 then st.attrcriterror + 1
                               else st.attrcriterror }
  else if r.i3 = 232 then
    { st with attrcriterror := if r.i6 ≤ 10 ∨ r.i7 ≤ 10 then st.attrcriterror + 1
                               else st.attrcriterror }
  else if r.i3 = 233 then
    { st with lifetimeremain := r.i6,
              attrcriterror := if r.i6 ≤ 10 ∨ r.i7 ≤ 10 then st.attrcriterror + 1
                               else st.attrcriterror }
  else if r.i3 = 241 then
    { st with lbawrite := vendec }
  else if r.i3 = 246 then
    { st with lbawrite := vendec }
  else
    st

/-- Run the attribute switch over all decoded records of one disk, in scan
order, starting from the zero-initialised accumulators. -/
def smartFoldRecords (rs : List SmartRecord) : SmartDiskState :=
  rs.foldl applySmartRecord initSmartState

/-- The temperature signal a `VendorSpecific` byte slice decodes to: `none`
when the scan panics, otherwise the final value of the `temperature`
accumulator. -/
def smartTemperature (xs : List Nat) : Option Nat :=
  (smartDecode xs).map (fun rs => (smartFoldRecords rs).temperature)

/-! ### DFSR source-list expansion (`dfsrExpandEnabledSources`, dfsr.go 92-105)

Strings are embedded as `List Char`.  `splitComma` is Go's
`strings.Split(enabled, ",")` for the single-character separator: it always
returns at least one (possibly empty) group, and splitting the empty string
yields one empty group. -/

def splitComma : List Char → List (List Char)
  | [] => [[]]
  | c :: rest =>
    if c = ',' then
      [] :: splitComma rest
    else
      match splitComma rest with
      | [] => [[c]]
      | g :: gs => (c :: g) :: gs

/-- The expansion of dfsr.go 92-105: split on commas, drop empty entries,
deduplicate.  The Go code deduplicates through a `map[string]bool` and
reads the keys back in unspecified map-iteration order; the model fixes
first-occurrence order (`List.dedup`), and the set-level claims about the
result are stated on `toFinset`. -/
def dfsrExpandEnabledSources (enabled : List Char) : List (List Char) :=
  ((splitComma enabled).filter (fun s => s != ([] : List Char))).dedup

/-! ### The shared child-failure counter (dfsr.go 84-85, 461-466, 485-492)

`DFSRCollector.Collect` starts one goroutine per child; a failing child's
goroutine executes `c.dfsrChildCollectorFailure++` on the shared struct
field with no synchronisation.  The increment is not atomic: it is a read
of the field followed by a write of the read value plus one.  The state
space below embeds two concurrently failing children (workers 0 and 1) and
the shared counter; a schedule is any interleaving that keeps each
worker's read before its write. -/

inductive RaceStep
  | read0
  | write0
  | read1
  | write1
deriving DecidableEq

structure RaceState where
  counter : Nat
  reg0 : Nat
  reg1 : Nat
deriving DecidableEq

/-- One hardware step of `c.dfsrChildCollectorFailure++`: a worker either
loads the shared counter into its register or stores its register plus
one back. -/
def raceStepRun (st : RaceState) : RaceStep → RaceState
  | .read0 => { st with reg0 := st.counter }
  | .write0 => { st with counter := st.reg0 + 1 }
  | .read1 => { st with reg1 := st.counter }
  | .write1 => { st with counter := st.reg1 + 1 }

/-- Run a schedule from the zero counter (a fresh `DFSRCollector`). -/
def raceRun (steps : List RaceStep) : RaceState :=
  steps.foldl raceStepRun ⟨0, 0, 0⟩

def isWorker0 (s : RaceStep) : Bool :=
  s == RaceStep.read0 || s == RaceStep.write0

def isWorker1 (s : RaceStep) : Bool :=
  s == RaceStep.read1 || s == RaceStep.write1

/-- A schedule is a legal interleaving of the two workers' increments when
each worker's own steps are its program `read; write` in order. -/
def isInterleaving (steps : List RaceStep) : Bool :=
  steps.filter isWorker0 == [RaceStep.read0, RaceStep.write0] &&
    steps.filter isWorker1 == [RaceStep.read1, RaceStep.write1]

/-! ### The DFSR composite collector (dfsr.go 456-506, 523-885)

Counter values are only copied from the perflib rows into samples, never
computed with, so they are embedded as `Nat`.  A metric sample's
descriptor identity is the `*prometheus.Desc` field of `DFSRCollector`
that produced it (distinct Go pointers, hence an inductive enumeration);
every DFSR descriptor has exactly one label value. -/

inductive MetricKind
  | counter
  | gauge
deriving DecidableEq

inductive DfsrDesc
  | dfsrScrapeDurationDesc
  | dfsrScrapeSuccessDesc
  | ConnectionBandwidthSavingsUsingDFSReplicationTotal
  | ConnectionBytesReceivedTotal
  | ConnectionCompressedSizeOfFilesReceivedTotal
  | ConnectionFilesReceivedTotal
  | ConnectionRDCBytesReceivedTotal
  | ConnectionRDCCompressedSizeOfFilesReceivedTotal
  | ConnectionRDCSizeOfFilesReceivedTotal
  | ConnectionRDCNumberofFilesReceivedTotal
  | ConnectionSizeOfFilesReceivedTotal
  | FolderBandwidthSavingsUsingDFSReplicationTotal
  | FolderCompressedSizeOfFilesReceivedTotal
  | FolderConflictBytesCleanedupTotal
  | FolderConflictBytesGeneratedTotal
  | FolderConflictFilesCleanedUpTotal
  | FolderConflictFilesGeneratedTotal
  | FolderConflictFolderCleanupsCompletedTotal
  | FolderConflictSpaceInUse
  | FolderDeletedSpaceInUse
  | FolderDeletedBytesCleanedUpTotal
  | FolderDeletedBytesGeneratedTotal
  | FolderDeletedFilesCleanedUpTotal
  | FolderDeletedFilesGeneratedTotal
  | FolderFileInstallsRetriedTotal
  | FolderFileInstallsSucceededTotal
  | FolderFilesReceivedTotal
  | FolderRDCBytesReceivedTotal
  | FolderRDCCompressedSizeOfFilesReceivedTotal
  | FolderRDCNumberofFilesReceivedTotal
  | FolderRDCSizeOfFilesReceivedTotal
  | FolderSizeOfFilesReceivedTotal
  | FolderStagingSpaceInUse
  | FolderStagingBytesCleanedUpTotal
  | FolderStagingBytesGeneratedTotal
  | FolderStagingFilesCleanedUpTotal
  | FolderStagingFilesGeneratedTotal
  | FolderUpdatesDroppedTotal
  | VolumeDatabaseLookupsTotal
  | VolumeDatabaseCommitsTotal
  | VolumeUSNJournalUnreadPercentage
  | VolumeUSNJournalRecordsAcceptedTotal
  | VolumeUSNJournalRecordsReadTotal
deriving DecidableEq

structure DfsrSample where
  desc : DfsrDesc
  kind : MetricKind
  value : Nat
  labelValue : String
deriving DecidableEq

structure PerflibDFSRConnection where
  Name : String
  BandwidthSavingsUsingDFSReplicationTotal : Nat
  BytesReceivedTotal : Nat
  CompressedSizeOfFilesReceivedTotal : Nat
  FilesReceivedTotal : Nat
  RDCBytesReceivedTotal : Nat
  RDCCompressedSizeOfFilesReceivedTotal : Nat
  RDCNumberofFilesReceivedTotal : Nat
  RDCSizeOfFilesReceivedTotal : Nat
  SizeOfFilesReceivedTotal : Nat
deriving DecidableEq

structure PerflibDFSRFolder where
  Name : String
  BandwidthSavingsUsingDFSReplicationTotal : Nat
  CompressedSizeOfFilesReceivedTotal : Nat
  ConflictBytesCleanedupTotal : Nat
  ConflictBytesGeneratedTotal : Nat
  ConflictFilesCleanedUpTotal : Nat
  ConflictFilesGeneratedTotal : Nat
  ConflictFolderCleanupsCompletedTotal : Nat
  ConflictSpaceInUse : Nat
  DeletedSpaceInUse : Nat
  DeletedBytesCleanedUpTotal : Nat
  DeletedBytesGeneratedTotal : Nat
  DeletedFilesCleanedUpTotal : Nat
  DeletedFilesGeneratedTotal : Nat
  FileInstallsRetriedTotal : Nat
  FileInstallsSucceededTotal : Nat
  FilesReceivedTotal : Nat
  RDCBytesReceivedTotal : Nat
  RDCCompressedSizeOfFilesReceivedTotal : Nat
  RDCNumberofFilesReceivedTotal : Nat
  RDCSizeOfFilesReceivedTotal : Nat
  SizeOfFilesReceivedTotal : Nat
  StagingSpaceInUse : Nat
  StagingBytesCleanedUpTotal : Nat
  StagingBytesGeneratedTotal : Nat
  StagingFilesCleanedUpTotal : Nat
  StagingFilesGeneratedTotal : Nat
  UpdatesDroppedTotal : Nat
deriving DecidableEq

structure PerflibDFSRVolume where
  Name : String
  DatabaseCommitsTotal : Nat
  DatabaseLookupsTotal : Nat
  USNJournalRecordsReadTotal : Nat
  USNJournalRecordsAcceptedTotal : Nat
  USNJournalUnreadPercentage : Nat
deriving DecidableEq

/-- The samples `collectConnection` sends for one connection row, in send
order (dfsr.go 529-593). -/
def connectionSamples (c : PerflibDFSRConnection) : List DfsrSample :=
  [⟨.ConnectionBandwidthSavingsUsingDFSReplicationTotal, .counter,
      c.BandwidthSavingsUsingDFSReplicationTotal, c.Name⟩,
   ⟨.ConnectionBytesReceivedTotal, .counter, c.BytesReceivedTotal, c.Name⟩,
   ⟨.ConnectionCompressedSizeOfFilesReceivedTotal, .counter,
      c.CompressedSizeOfFilesReceivedTotal, c.Name⟩,
   ⟨.ConnectionFilesReceivedTotal, .counter, c.FilesReceivedTotal, c.Name⟩,
   ⟨.ConnectionRDCBytesReceivedTotal, .counter, c.RDCBytesReceivedTotal, c.Name⟩,
   ⟨.ConnectionRDCCompressedSizeOfFilesReceivedTotal, .counter,
      c.RDCCompressedSizeOfFilesReceivedTotal, c.Name⟩,
   ⟨.ConnectionRDCSizeOfFilesReceivedTotal, .counter,
      c.RDCSizeOfFilesReceivedTotal, c.Name⟩,
   ⟨.ConnectionRDCNumberofFilesReceivedTotal, .counter,
      c.RDCNumberofFilesReceivedTotal, c.Name⟩,
   ⟨.ConnectionSizeOfFilesReceivedTotal, .counter,
      c.SizeOfFilesReceivedTotal, c.Name⟩]

/-- The samples `collectFolder` sends for one folder row, in send order
(dfsr.go 637-826). -/
def folderSamples (f : PerflibDFSRFolder) : List DfsrSample :=
  [⟨.FolderBandwidthSavingsUsingDFSReplicationTotal, .counter,
      f.BandwidthSavingsUsingDFSReplicationTotal, f.Name⟩,
   ⟨.FolderCompressedSizeOfFilesReceivedTotal, .counter,
      f.CompressedSizeOfFilesReceivedTotal, f.Name⟩,
   ⟨.FolderConflictBytesCleanedupTotal, .counter,
      f.ConflictBytesCleanedupTotal, f.Name⟩,
   ⟨.FolderConflictBytesGeneratedTotal, .counter,
      f.ConflictBytesGeneratedTotal, f.Name⟩,
   ⟨.FolderConflictFilesCleanedUpTotal, .counter,
      f.ConflictFilesCleanedUpTotal, f.Name⟩,
   ⟨.FolderConflictFilesGeneratedTotal, .counter,
      f.ConflictFilesGeneratedTotal, f.Name⟩,
   ⟨.FolderConflictFolderCleanupsCompletedTotal, .counter,
      f.ConflictFolderCleanupsCompletedTotal, f.Name⟩,
   ⟨.FolderConflictSpaceInUse, .gauge, f.ConflictSpaceInUse, f.Name⟩,
   ⟨.FolderDeletedSpaceInUse, .gauge, f.DeletedSpaceInUse, f.Name⟩,
   ⟨.FolderDeletedBytesCleanedUpTotal, .counter,
      f.DeletedBytesCleanedUpTotal, f.Name⟩,
   ⟨.FolderDeletedBytesGeneratedTotal, .counter,
      f.DeletedBytesGeneratedTotal, f.Name⟩,
   ⟨.FolderDeletedFilesCleanedUpTotal, .counter,
      f.DeletedFilesCleanedUpTotal, f.Name⟩,
   ⟨.FolderDeletedFilesGeneratedTotal, .counter,
      f.DeletedFilesGeneratedTotal, f.Name⟩,
   ⟨.FolderFileInstallsRetriedTotal, .counter,
      f.FileInstallsRetriedTotal, f.Name⟩,
   ⟨.FolderFileInstallsSucceededTotal, .counter,
      f.FileInstallsSucceededTotal, f.Name⟩,
   ⟨.FolderFilesReceivedTotal, .counter, f.FilesReceivedTotal, f.Name⟩,
   ⟨.FolderRDCBytesReceivedTotal, .counter, f.RDCBytesReceivedTotal, f.Name⟩,
   ⟨.FolderRDCCompressedSizeOfFilesReceivedTotal, .counter,
      f.RDCCompressedSizeOfFilesReceivedTotal, f.Name⟩,
   ⟨.FolderRDCNumberofFilesReceivedTotal, .counter,
      f.RDCNumberofFilesReceivedTotal, f.Name⟩,
   ⟨.FolderRDCSizeOfFilesReceivedTotal, .counter,
      f.RDCSizeOfFilesReceivedTotal, f.Name⟩,
   ⟨.FolderSizeOfFilesReceivedTotal, .counter,
      f.SizeOfFilesReceivedTotal, f.Name⟩,
   ⟨.FolderStagingSpaceInUse, .gauge, f.StagingSpaceInUse, f.Name⟩,
   ⟨.FolderStagingBytesCleanedUpTotal, .counter,
      f.StagingBytesCleanedUpTotal, f.Name⟩,
   ⟨.FolderStagingBytesGeneratedTotal, .counter,
      f.StagingBytesGeneratedTotal, f.Name⟩,
   ⟨.FolderStagingFilesCleanedUpTotal, .counter,
      f.StagingFilesCleanedUpTotal, f.Name⟩,
   ⟨.FolderStagingFilesGeneratedTotal, .counter,
      f.StagingFilesGeneratedTotal, f.Name⟩,
   ⟨.FolderUpdatesDroppedTotal, .counter, f.UpdatesDroppedTotal, f.Name⟩]

/-- The samples `collectVolume` sends for one volume row, in send order
(dfsr.go 847-883). -/
def volumeSamples (v : PerflibDFSRVolume) : List DfsrSample :=
  [⟨.VolumeDatabaseLookupsTotal, .counter, v.DatabaseLookupsTotal, v.Name⟩,
   ⟨.VolumeDatabaseCommitsTotal, .counter, v.DatabaseCommitsTotal, v.Name⟩,
   ⟨.VolumeUSNJournalRecordsAcceptedTotal, .counter,
      v.USNJournalRecordsAcceptedTotal, v.Name⟩,
   ⟨.VolumeUSNJournalRecordsReadTotal, .counter,
      v.USNJournalRecordsReadTotal, v.Name⟩,
   ⟨.VolumeUSNJournalUnreadPercentage, .gauge,
      v.USNJournalUnreadPercentage, v.Name⟩]

deriving instance DecidableEq for Except

/-- What each child collector sees in the scrape context: the result of
`unmarshalObject(ctx.perfObjects[...], &dst)` for its perf object.  The
perflib snapshot and unmarshalling live outside the embedded sources and
are collaborators here; an `Except.error` is a failed lookup or unmarshal. -/
structure DFSRScrapeContext where
  connections : Except String (List PerflibDFSRConnection)
  folders : Except String (List PerflibDFSRFolder)
  volumes : Except String (List PerflibDFSRVolume)
deriving DecidableEq

/-- `collectConnection` (dfsr.go 523-596): on unmarshal error, return the
error having sent nothing; otherwise send nine samples per row and
succeed.  The `Bool` is whether an error was returned. -/
def collectConnection (ctx : DFSRScrapeContext) : List DfsrSample × Bool :=
  match ctx.connections with
  | .error _ => ([], true)
  | .ok dst => (dst.flatMap connectionSamples, false)

/-- `collectFolder` (dfsr.go 631-828). -/
def collectFolder (ctx : DFSRScrapeContext) : List DfsrSample × Bool :=
  match ctx.folders with
  | .error _ => ([], true)
  | .ok dst => (dst.flatMap folderSamples, false)

/-- `collectVolume` (dfsr.go 841-885). -/
def collectVolume (ctx : DFSRScrapeContext) : List DfsrSample × Bool :=
  match ctx.volumes with
  | .error _ => ([], true)
  | .ok dst => (dst.flatMap volumeSamples, false)

/-- `DFSRCollector.execute` (dfsr.go 476-506) for one named child: run the
child's collection function, bump the shared failure counter if it
errored, then always send one duration and one success meta-sample
labeled with the child's name.  The wall-clock `duration.Seconds()` value
is supplied by the environment. -/
def dfsrExecute (ctx : DFSRScrapeContext) (name : String)
    (fn : DFSRScrapeContext → List DfsrSample × Bool)
    (duration : Nat) (failures : Nat) : List DfsrSample × Nat :=
  let r := fn ctx
  let failures' := if r.2 then failures + 1 else failures
  let success : Nat := if r.2 then 0 else 1
  (r.1 ++
    [⟨.dfsrScrapeDurationDesc, .gauge, duration, name⟩,
     ⟨.dfsrScrapeSuccessDesc, .gauge, success, name⟩],
   failures')

/-- The child map built by `getDFSRChildCollectors` (dfsr.go 447-454).  Go
map iteration order is unspecified; the model fixes insertion order, and
the claims proved below do not depend on the order. -/
def dfsrChildCollectors : List (String × (DFSRScrapeContext → List DfsrSample × Bool)) :=
  [("connection", collectConnection), ("folder", collectFolder),
   ("volume", collectVolume)]

/-- `DFSRCollector.Collect` (dfsr.go 458-472), sequentialised at the
join: every child's `execute` runs to completion before the failure
counter is inspected (`wg.Wait()`), so the channel contents and the
post-join counter are those of running the children one after another.
`failures0` is the value of `c.dfsrChildCollectorFailure` when `Collect`
starts — the field is a struct member that `Collect` never resets, so on
the first call it is 0 and on later calls it is whatever earlier scrapes
left behind.  Returns the emitted samples and the final counter. -/
def dfsrCollect (ctx : DFSRScrapeContext) (durations : String → Nat)
    (failures0 : Nat) : List DfsrSample × Nat :=
  dfsrChildCollectors.foldl
    (fun acc nf =>
      let r := dfsrExecute ctx nf.1 nf.2 (durations nf.1) acc.2
      (acc.1 ++ r.1, r.2))
    ([], failures0)

/-- Whether `Collect` returns the "at least one child collector failed"
error: `c.dfsrChildCollectorFailure > 0` after the join (dfsr.go 468-471). -/
def dfsrCollectError (ctx : DFSRScrapeContext) (durations : String → Nat)
    (failures0 : Nat) : Bool :=
  decide (0 < (dfsrCollect ctx durations failures0).2)

/-- A connection row with distinct field values, for concrete runs. -/
def dfsrConnRow : PerflibDFSRConnection := ⟨"C1", 1, 2, 3, 4, 5, 6, 7, 8, 9⟩

/-- A volume row with distinct field values, for concrete runs. -/
def dfsrVolRow : PerflibDFSRVolume := ⟨"V1", 1, 2, 3, 4, 5⟩

/-- A scrape in which the folder object fails to unmarshal and the other
two children succeed. -/
def dfsrCtxFolderFails : DFSRScrapeContext :=
  ⟨.ok [dfsrConnRow], .error "unmarshal failed", .ok [dfsrVolRow]⟩

/-- A scrape in which all three children succeed. -/
def dfsrCtxAllOk : DFSRScrapeContext :=
  ⟨.ok [dfsrConnRow], .ok [], .ok [dfsrVolRow]⟩

/-! ### The network collector's instance filter (`NetworkCollector.collect`)

The collector compiles its two flag values as `^(?:FLAG)$`, so
`MatchString` is a full match of the instance name against the flag's
pattern.  The Go `regexp` package is an external collaborator; its
full-match semantics for the pattern fragments that occur here (literals,
`.`, `+`, `*`, alternation, concatenation) is embedded as a standard
Brzozowski-derivative matcher — `Regex.rmatch r s` is
`regexp.MustCompile("^(?:r)$").MatchString(s)`.  The inner anchors of a
flag value such as `^Loopback$` are no-ops under a full match and are
dropped in its embedding. -/

inductive Regex
  | void
  | eps
  | chr (c : Char)
  | dot
  | cat (r1 r2 : Regex)
  | alt (r1 r2 : Regex)
  | star (r : Regex)
deriving DecidableEq

/-- Whether the regular expression accepts the empty string. -/
def Regex.nullable : Regex → Bool
  | .void => false
  | .eps => true
  | .chr _ => false
  | .dot => false
  | .cat r1 r2 => r1.nullable && r2.nullable
  | .alt r1 r2 => r1.nullable || r2.nullable
  | .star _ => true

/-- Brzozowski derivative with respect to one character. -/
def Regex.rderiv : Regex → Char → Regex
  | .void, _ => .void
  | .eps, _ => .void
  | .chr c, a => if a = c then .eps else .void
  | .dot, _ => .eps
  | .cat r1 r2, a =>
    if r1.nullable then .alt (.cat (r1.rderiv a) r2) (r2.rderiv a)
    else .cat (r1.rderiv a) r2
  | .alt r1 r2, a => .alt (r1.rderiv a) (r2.rderiv a)
  | .star r, a => .cat (r.rderiv a) (.star r)

/-- Full match of a string against a regular expression. -/
def Regex.rmatch (r : Regex) (s : List Char) : Bool :=
  (s.foldl Regex.rderiv r).nullable

/-- A literal string as a regular expression. -/
def Regex.lit : List Char → Regex
  | [] => .eps
  | c :: cs => .cat (.chr c) (Regex.lit cs)

/-- The default whitelist flag value ".+". -/
def nicWhitelistDefault : Regex := .cat .dot (.star .dot)

/-- The blacklist flag value "^Loopback$" (anchors dropped: the whole
pattern is compiled inside `^(?:...)$`, making the match full anyway). -/
def nicBlacklistLoopback : Regex :=
  Regex.lit ['L', 'o', 'o', 'p', 'b', 'a', 'c', 'k']

/-- One `Win32_PerfRawData_Tcpip_NetworkInterface` row. -/
structure NetIface where
  Name : List Char
  BytesReceivedPerSec : Nat
  BytesSentPerSec : Nat
  BytesTotalPerSec : Nat
  PacketsOutboundDiscarded : Nat
  PacketsOutboundErrors : Nat
  PacketsPerSec : Nat
  PacketsReceivedDiscarded : Nat
  PacketsReceivedErrors : Nat
  PacketsReceivedPerSec : Nat
  PacketsReceivedUnknown : Nat
  PacketsSentPerSec : Nat
deriving DecidableEq

/-- The `*prometheus.Desc` fields of `NetworkCollector`. -/
inductive NetDesc
  | BytesReceivedTotal
  | BytesSentTotal
  | BytesTotal
  | PacketsOutboundDiscarded
  | PacketsOutboundErrors
  | PacketsTotal
  | PacketsReceivedDiscarded
  | PacketsReceivedErrors
  | PacketsReceivedTotal
  | PacketsReceivedUnknown
  | PacketsSentTotal
deriving DecidableEq

structure NetSample where
  desc : NetDesc
  kind : MetricKind
  value : Nat
  nic : List Char
deriving DecidableEq

/-- The character class of `nicNameToUnderscore = regexp.MustCompile("[^a-zA-Z0-9]")`. -/
def isAlphanumeric (c : Char) : Bool :=
  ('a' ≤ c && c ≤ 'z') || ('A' ≤ c && c ≤ 'Z') || ('0' ≤ c && c ≤ '9')

/-- `mangleNetworkName`: every non-alphanumeric character becomes an
underscore. -/
def mangleNetworkName (name : List Char) : List Char :=
  name.map (fun c => if isAlphanumeric c then c else '_')

/-- The eleven counter samples sent for one row that passed the filter,
labeled with the mangled name, in send order. -/
def nicSamples (nic : NetIface) (name : List Char) : List NetSample :=
  [⟨.BytesReceivedTotal, .counter, nic.BytesReceivedPerSec, name⟩,
   ⟨.BytesSentTotal, .counter, nic.BytesSentPerSec, name⟩,
   ⟨.BytesTotal, .counter, nic.BytesTotalPerSec, name⟩,
   ⟨.PacketsOutboundDiscarded, .counter, nic.PacketsOutboundDiscarded, name⟩,
   ⟨.PacketsOutboundErrors, .counter, nic.PacketsOutboundErrors, name⟩,
   ⟨.PacketsTotal, .counter, nic.PacketsPerSec, name⟩,
   ⟨.PacketsReceivedDiscarded, .counter, nic.PacketsReceivedDiscarded, name⟩,
   ⟨.PacketsReceivedErrors, .counter, nic.PacketsReceivedErrors, name⟩,
   ⟨.PacketsReceivedTotal, .counter, nic.PacketsReceivedPerSec, name⟩,
   ⟨.PacketsReceivedUnknown, .counter, nic.PacketsReceivedUnknown, name⟩,
   ⟨.PacketsSentTotal, .counter, nic.PacketsSentPerSec, name⟩]

/-- The per-row loop of `NetworkCollector.collect`: skip the row when the
blacklist matches or the whitelist does not, skip it when the mangled
name is empty, otherwise send the eleven samples. -/
def networkCollectRows (wl bl : Regex) (dst : List NetIface) : List NetSample :=
  dst.flatMap (fun nic =>
    if bl.rmatch nic.Name || !wl.rmatch nic.Name then
      []
    else
      let name := mangleNetworkName nic.Name
      if name = [] then []
      else nicSamples nic name)

/-- `NetworkCollector.collect`: a WMI query error is returned with nothing
sent; otherwise the row loop runs and the call succeeds. -/
def networkCollect (wl bl : Regex) (queryResult : Except String (List NetIface)) :
    Except String (List NetSample) :=
  match queryResult with
  | .error e => .error e
  | .ok dst => .ok (networkCollectRows wl bl dst)

/-- A row named "Loopback". -/
def loopbackNic : NetIface :=
  ⟨['L', 'o', 'o', 'p', 'b', 'a', 'c', 'k'], 1, 2, 3, 4, 5, 6, 7, 8, 9, 10, 11⟩

/-- A row named "Ethernet0". -/
def ethernetNic : NetIface :=
  ⟨['E', 't', 'h', 'e', 'r', 'n', 'e', 't', '0'], 1, 2, 3, 4, 5, 6, 7, 8, 9, 10, 11⟩

/-- A row with an empty instance name. -/
def emptyNameNic : NetIface := ⟨[], 0, 0, 0, 0, 0, 0, 0, 0, 0, 0, 0⟩

/-! ### The container collector (`ContainerMetricsCollector.collect`,
container.go 135-257)

`hcsshim.GetContainers`, `hcsshim.OpenContainer` and
`container.Statistics()` are external collaborators; their results are
inputs here.  The CPU counters are multiplied by the float constant
`ticksToSecondsScaleFactor` in Go (defined outside the embedded sources);
the samples here carry the raw 100ns tick counts, which is faithful for
everything the claims state (which samples exist and when the call
errors), since the scaling only transforms the value of each CPU sample. -/

/-- The `*prometheus.Desc` fields of `ContainerMetricsCollector`. -/
inductive ContainerDesc
  | ContainerAvailable
  | UsageCommitBytes
  | UsageCommitPeakBytes
  | UsagePrivateWorkingSetBytes
  | TotalRuntime100ns
  | RuntimeUser100ns
  | RuntimeKernel100ns
  | BytesReceived
  | BytesSent
  | PacketsReceived
  | PacketsSent
  | DroppedPacketsIncoming
  | DroppedPacketsOutgoing
deriving DecidableEq

structure ContainerSample where
  desc : ContainerDesc
  kind : MetricKind
  value : Nat
  labels : List String
deriving DecidableEq

structure ContainerNetworkStats where
  EndpointId : String
  BytesReceived : Nat
  BytesSent : Nat
  PacketsReceived : Nat
  PacketsSent : Nat
  DroppedPacketsIncoming : Nat
  DroppedPacketsOutgoing : Nat
deriving DecidableEq

structure ContainerStatistics where
  UsageCommitBytes : Nat
  UsageCommitPeakBytes : Nat
  UsagePrivateWorkingSetBytes : Nat
  TotalRuntime100ns : Nat
  RuntimeUser100ns : Nat
  RuntimeKernel100ns : Nat
  Network : List ContainerNetworkStats
deriving DecidableEq

/-- One entry of the `GetContainers` result together with what the two
follow-up calls for it would return. -/
structure ContainerDetails where
  ID : String
  openResult : Except String Unit
  statsResult : Except String ContainerStatistics
deriving DecidableEq

/-- The per-container loop body (container.go 149-254): a failed open or
statistics call skips the container (`continue`); otherwise seven
presence/memory/CPU samples are sent with the `docker://`-prefixed id,
followed — when the network stats are nonempty — by six samples per
interface. -/
def containerSamples (cd : ContainerDetails) : List ContainerSample :=
  match cd.openResult with
  | .error _ => []
  | .ok _ =>
    match cd.statsResult with
    | .error _ => []
    | .ok cstats =>
      let containerId := "docker://" ++ cd.ID
      [⟨.ContainerAvailable, .counter, 1, [containerId]⟩,
       ⟨.UsageCommitBytes, .gauge, cstats.UsageCommitBytes, [containerId]⟩,
       ⟨.UsageCommitPeakBytes, .gauge, cstats.UsageCommitPeakBytes, [containerId]⟩,
       ⟨.UsagePrivateWorkingSetBytes, .gauge,
          cstats.UsagePrivateWorkingSetBytes, [containerId]⟩,
       ⟨.TotalRuntime100ns, .counter, cstats.TotalRuntime100ns, [containerId]⟩,
       ⟨.RuntimeUser100ns, .counter, cstats.RuntimeUser100ns, [containerId]⟩,
       ⟨.RuntimeKernel100ns, .counter, cstats.RuntimeKernel100ns, [containerId]⟩] ++
      (if cstats.Network.length = 0 then []
       else cstats.Network.flatMap (fun ifc =>
        [⟨.BytesReceived, .counter, ifc.BytesReceived, [containerId, ifc.EndpointId]⟩,
         ⟨.BytesSent, .counter, ifc.BytesSent, [containerId, ifc.EndpointId]⟩,
         ⟨.PacketsReceived, .counter, ifc.PacketsReceived,
            [containerId, ifc.EndpointId]⟩,
         ⟨.PacketsSent, .counter, ifc.PacketsSent, [containerId, ifc.EndpointId]⟩,
         ⟨.DroppedPacketsIncoming, .counter, ifc.DroppedPacketsIncoming,
            [containerId, ifc.EndpointId]⟩,
         ⟨.DroppedPacketsOutgoing, .counter, ifc.DroppedPacketsOutgoing,
            [containerId, ifc.EndpointId]⟩]))

/-- `ContainerMetricsCollector.collect` (container.go 135-257): a
`GetContainers` error is returned with nothing sent; an empty container
list is an explicit success with zero samples (container.go 144-147);
otherwise the loop runs over all containers and the call succeeds. -/
def containerCollect (getContainersResult : Except String (List ContainerDetails)) :
    Except String (List ContainerSample) :=
  match getContainersResult with
  | .error e => .error e
  | .ok containers =>
    if containers.length = 0 then .ok []
    else .ok (containers.flatMap containerSamples)

/-! ### Step lemmas for the SMART scanning loop -/

/-- Loop exit: the scan index has reached the end of the input. -/
theorem smartDecodeAux_out (xs : List Nat) (fuel i : Nat) (hi : ¬ i < xs.length) :
    smartDecodeAux xs (fuel + 1) i = some [] := by
  simp [smartDecodeAux, hi]

/-- The `break` on a truncated trailing record: first byte 0 or 16 but fewer
than 7 bytes left past the record start. -/
theorem smartDecodeAux_stop (xs : List Nat) (fuel i : Nat) (hi : i < xs.length)
    (hv : xs.getD i 0 = 0 ∨ xs.getD i 0 = 16) (hlen : xs.length < i + 7) :
    smartDecodeAux xs (fuel + 1) i = some [] := by
  rw [List.getD_eq_getElem _ _ hi] at hv
  simp [smartDecodeAux, checkedGet, hi, hv, hlen]

/-- A record whose first byte is neither 0 nor 16 is passed over and the
scan moves to the next record. -/
theorem smartDecodeAux_passive (xs : List Nat) (fuel i : Nat) (hi : i < xs.length)
    (hv : ¬(xs.getD i 0 = 0 ∨ xs.getD i 0 = 16)) :
    smartDecodeAux xs (fuel + 1) i = smartDecodeAux xs fuel (i + 12) := by
  rw [List.getD_eq_getElem _ _ hi] at hv
  simp [smartDecodeAux, checkedGet, hi, hv]

/-- A fully in-bounds active record (first byte 0 or 16, second byte 0, and
index `i + 12` still inside the input) is decoded with all five raw bytes
and the scan continues. -/
theorem smartDecodeAux_active (xs : List Nat) (fuel i : Nat) (hi : i < xs.length)
    (hv : xs.getD i 0 = 0 ∨ xs.getD i 0 = 16) (hlen : ¬ xs.length < i + 7)
    (hv1 : xs.getD (i + 1) 0 = 0) (hfull : i + 12 < xs.length) :
    smartDecodeAux xs (fuel + 1) i =
      (smartDecodeAux xs fuel (i + 12)).map
        (fun rest =>
          ⟨xs.getD (i + 3) 0, xs.getD (i + 6) 0, xs.getD (i + 7) 0,
           xs.getD (i + 8) 0, xs.getD (i + 9) 0, xs.getD (i + 10) 0,
           xs.getD (i + 11) 0, xs.getD (i + 12) 0⟩ :: rest) := by
  have h1 : i + 1 < xs.length := by omega
  have h3 : i + 3 < xs.length := by omega
  have h6 : i + 6 < xs.length := by omega
  have h7 : i + 7 < xs.length := by omega
  have h8 : i + 8 < xs.length := by omega
  have h9 : i + 9 < xs.length := by omega
  have h10 : i + 10 < xs.length := by omega
  have h11 : i + 11 < xs.length := by omega
  have hge : xs.length ≥ i + 12 := by omega
  rw [List.getD_eq_getElem _ _ hi] at hv
  rw [List.getD_eq_getElem _ _ h1] at hv1
  simp [smartDecodeAux, checkedGet, hi, hv, hlen, hv1, h1, h3, h6, h7, h8, h9,
    h10, h11, hfull, hge]

/-! ### Claim theorems for the SMART decoder -/

/-- C2. The claim says the decoder never reads an index at or past the input
length.  The code's guard `len(disk.VendorSpecific) < i+7` still lets the
read `disk.VendorSpecific[i+7]` happen when the length is exactly `i + 7`,
and the guard `len(...) >= i+12` still lets `disk.VendorSpecific[i+12]`
happen when the length is exactly `i + 12`; both reads are one past the end
and panic (model: `smartDecode` returns `none`).  A 7-byte and a 12-byte
input whose first record is active exhibit the two out-of-range reads. -/
theorem smart_decode_out_of_bounds_read :
    smartDecode [0, 0, 0, 0, 0, 0, 0] = none ∧
    smartDecode [0, 0, 0, 0, 0, 0, 0, 0, 0, 0, 0, 0] = none := by
  constructor <;> rfl

/-- C3. The claim says the raw value is the little-endian multi-byte integer
(weights 2^8, 2^16, 2^24, 2^32 for the wide ids, 2^8 for the default).
The code writes `int(i9)*(16^2)` etc., and Go's `^` is bitwise XOR, so the
weights actually are 18, 20, 22, 24: for a wide id (9) with raw bytes
b8 = 0, b9 = 1 the decoded raw value is 18, not the 256 the claim
prescribes.  `specRawValue` is the claim's formula. -/
theorem smart_vendec_xor_not_power :
    smartDecode [0, 0, 0, 9, 0, 0, 100, 100, 0, 1, 0, 0, 0] =
      some [⟨9, 100, 100, 0, 1, 0, 0, 0⟩] ∧
    smartVendec 9 0 1 0 0 0 = 18 ∧
    specRawValue 9 0 1 0 0 0 = 256 ∧
    (18 : Nat) ≠ 256 := by
  refine ⟨rfl, rfl, rfl, by decide⟩

/-- C10. Inside the scanning loop, a record whose first byte is 0 or 16 and
whose second byte (offset `i + 1`) is nonzero is skipped entirely — no
field of it is decoded into the record list — and scanning continues with
the next record at `i + 12` (smart.go 162-166, the `continue` after the
"unexpected smart" log). -/
theorem smart_skip_nonzero_second_byte (xs : List Nat) (fuel i : Nat)
    (hi : i < xs.length) (hv : xs.getD i 0 = 0 ∨ xs.getD i 0 = 16)
    (hlen : ¬ xs.length < i + 7) (hv1 : xs.getD (i + 1) 0 ≠ 0) :
    smartDecodeAux xs (fuel + 1) i = smartDecodeAux xs fuel (i + 12) := by
  have h1 : i + 1 < xs.length := by omega
  rw [List.getD_eq_getElem _ _ hi] at hv
  rw [List.getD_eq_getElem _ _ h1] at hv1
  simp [smartDecodeAux, checkedGet, hi, h1, hv, hlen, hv1]

/-- Witness for C10: a record starting with byte 0 whose second byte is 5 is
skipped and the scan moves to offset 12. -/
theorem smart_skip_nonzero_second_byte_witness :
    (0 < ([0, 5, 0, 0, 0, 0, 0, 0] : List Nat).length ∧
        ([0, 5, 0, 0, 0, 0, 0, 0] : List Nat).getD 1 0 ≠ 0) ∧
    smartDecodeAux [0, 5, 0, 0, 0, 0, 0, 0] 9 0 =
      smartDecodeAux [0, 5, 0, 0, 0, 0, 0, 0] 8 12 :=
  ⟨⟨by decide, by decide⟩,
    smart_skip_nonzero_second_byte [0, 5, 0, 0, 0, 0, 0, 0] 8 0 (by decide)
      (Or.inl (by decide)) (by decide) (by decide)⟩

/-- C6. For every record with attribute id 194, the temperature signal is
set to the record's raw byte at offset 8 alone, whatever state precedes
it and whatever the bytes at offsets 9 through 12 are; and end to end, a
record with id 194 and raw byte 45 decodes to a temperature of 45 for
every choice of the trailing raw bytes. -/
theorem smart_temperature_single_byte (b9 b10 b11 b12 : Nat) :
    (∀ (st : SmartDiskState) (r : SmartRecord), r.i3 = 194 →
        (applySmartRecord st r).temperature = r.i8) ∧
    smartVendec 194 45 b9 b10 b11 b12 = 45 ∧
    smartTemperature [0, 0, 0, 194, 0, 0, 100, 100, 45, b9, b10, b11, b12] =
      some 45 := by
  refine ⟨?_, rfl, ?_⟩
  · intro st r hr
    simp [applySmartRecord, smartVendec, hr]
  have hstep : smartDecodeAux [0, 0, 0, 194, 0, 0, 100, 100, 45, b9, b10, b11, b12]
      ([0, 0, 0, 194, 0, 0, 100, 100, 45, b9, b10, b11, b12] : List Nat).length
      (0 + 12) = some [] := by
    rw [show ([0, 0, 0, 194, 0, 0, 100, 100, 45, b9, b10, b11, b12] :
      List Nat).length = 12 + 1 from rfl]
    by_cases hb : b12 = 0 ∨ b12 = 16
    · exact smartDecodeAux_stop
        [0, 0, 0, 194, 0, 0, 100, 100, 45, b9, b10, b11, b12] 12 (0 + 12)
        (by simp) hb (by simp)
    · rw [smartDecodeAux_passive
        [0, 0, 0, 194, 0, 0, 100, 100, 45, b9, b10, b11, b12] 12 (0 + 12)
        (by simp) hb]
      exact smartDecodeAux_out
        [0, 0, 0, 194, 0, 0, 100, 100, 45, b9, b10, b11, b12] 11 (0 + 12 + 12)
        (by simp)
  unfold smartTemperature smartDecode
  rw [smartDecodeAux_active
    [0, 0, 0, 194, 0, 0, 100, 100, 45, b9, b10, b11, b12]
    ([0, 0, 0, 194, 0, 0, 100, 100, 45, b9, b10, b11, b12] : List Nat).length 0
    (by simp) (Or.inl rfl) (by simp) rfl (by simp)]
  rw [hstep]
  rfl

/-- Witness for C6: a concrete id-194 record with trailing raw bytes
1, 2, 3, 4 yields temperature 45. -/
theorem smart_temperature_single_byte_witness :
    (⟨194, 100, 100, 45, 1, 2, 3, 4⟩ : SmartRecord).i3 = 194 ∧
    (applySmartRecord initSmartState
        ⟨194, 100, 100, 45, 1, 2, 3, 4⟩).temperature = 45 ∧
    smartTemperature [0, 0, 0, 194, 0, 0, 100, 100, 45, 1, 2, 3, 4] = some 45 :=
  ⟨rfl,
    (smart_temperature_single_byte 1 2 3 4).1 initSmartState
      ⟨194, 100, 100, 45, 1, 2, 3, 4⟩ rfl,
    (smart_temperature_single_byte 1 2 3 4).2.2⟩

/-! ### Lemmas on the source-list expansion -/

/-- Go's `strings.Split` never returns an empty slice, and neither does
`splitComma`. -/
theorem splitComma_ne_nil (l : List Char) : splitComma l ≠ [] := by
  induction l with
  | nil => simp [splitComma]
  | cons c rest ih =>
    by_cases h : c = ','
    · simp [splitComma, h]
    · simp only [splitComma, h, if_false]
      rcases hsp : splitComma rest with _ | ⟨g, gs⟩
      · simp
      · simp

/-- Unfolding of `splitComma` at a non-separator head character. -/
theorem splitComma_cons_ne (c : Char) (l : List Char) (h : ¬ c = ',') :
    splitComma (c :: l) =
      match splitComma l with
      | [] => [[c]]
      | g :: gs => (c :: g) :: gs := by
  simp [splitComma, h]

/-- Splitting around an explicit comma splits each side independently. -/
theorem splitComma_append (a b : List Char) :
    splitComma (a ++ ',' :: b) = splitComma a ++ splitComma b := by
  induction a with
  | nil => simp [splitComma]
  | cons c rest ih =>
    by_cases h : c = ','
    · simp [splitComma, h, ih]
    · rcases hsp : splitComma rest with _ | ⟨g, gs⟩
      · exact absurd hsp (splitComma_ne_nil rest)
      · rw [List.cons_append, splitComma_cons_ne c _ h, splitComma_cons_ne c _ h,
          ih, hsp]
        simp

/-- Deduplication does not change the underlying set. -/
theorem dfsrExpand_toFinset (l : List Char) :
    (dfsrExpandEnabledSources l).toFinset =
      ((splitComma l).filter (fun s => s != ([] : List Char))).toFinset := by
  ext x
  simp [dfsrExpandEnabledSources]

/-- C7. Expanding the enabled DFSR source list is duplicate-free and
idempotent at the set level: the result never contains a source twice,
concatenating two lists with a comma expands to the union of their
expansions, and in particular a list joined with itself expands to the
same set as the list alone.  (The Go function returns the deduplicated
sources in unspecified map order, so the set of sources is the
order-insensitive meaning of its result.) -/
theorem dfsr_expand_sources_idempotent (a b : List Char) :
    (dfsrExpandEnabledSources a).Nodup ∧
    (dfsrExpandEnabledSources (a ++ ',' :: b)).toFinset =
      (dfsrExpandEnabledSources a).toFinset ∪ (dfsrExpandEnabledSources b).toFinset ∧
    (dfsrExpandEnabledSources (a ++ ',' :: a)).toFinset =
      (dfsrExpandEnabledSources a).toFinset := by
  have hu : ∀ x y : List Char,
      (dfsrExpandEnabledSources (x ++ ',' :: y)).toFinset =
        (dfsrExpandEnabledSources x).toFinset ∪ (dfsrExpandEnabledSources y).toFinset := by
    intro x y
    rw [dfsrExpand_toFinset, splitComma_append, List.filter_append,
      List.toFinset_append, dfsrExpand_toFinset, dfsrExpand_toFinset]
  exact ⟨List.nodup_dedup _, hu a b, by rw [hu a a, Finset.union_self]⟩

/-! ### Claim theorems for the DFSR collector -/

/-- C9. The claim says the child-failure counter is updated with a
concurrency-safe mechanism so the post-join value equals the exact number
of failed children.  The code increments the plain shared field
`c.dfsrChildCollectorFailure` from concurrent goroutines with no
synchronisation; under the interleaving `read0; read1; write0; write1`
(a legal schedule of two failing children) one update is lost and the
post-join counter is 1 instead of 2. -/
theorem dfsr_failure_counter_lost_update :
    isInterleaving
        [RaceStep.read0, RaceStep.read1, RaceStep.write0, RaceStep.write1] = true ∧
    (raceRun
        [RaceStep.read0, RaceStep.read1, RaceStep.write0, RaceStep.write1]).counter = 1 ∧
    (1 : Nat) ≠ 2 := by decide

/-- C1. The claim says every `Collect` run errors exactly when at least one
child failed in that run.  On a fresh collector (counter 0) a run where
the folder child fails does return the error while connection's and
volume's samples are still emitted — but `c.dfsrChildCollectorFailure` is
never reset, so a second run on the same collector in which every child
succeeds still returns the error: the "only if" direction fails for every
run after the first failure. -/
theorem dfsr_collect_error_persists_across_runs :
    (dfsrCollect dfsrCtxFolderFails (fun _ => 3) 0).1 =
      connectionSamples dfsrConnRow ++
        [⟨.dfsrScrapeDurationDesc, .gauge, 3, "connection"⟩,
         ⟨.dfsrScrapeSuccessDesc, .gauge, 1, "connection"⟩] ++
        [⟨.dfsrScrapeDurationDesc, .gauge, 3, "folder"⟩,
         ⟨.dfsrScrapeSuccessDesc, .gauge, 0, "folder"⟩] ++
        (volumeSamples dfsrVolRow ++
          [⟨.dfsrScrapeDurationDesc, .gauge, 3, "volume"⟩,
           ⟨.dfsrScrapeSuccessDesc, .gauge, 1, "volume"⟩]) ∧
    (dfsrCollect dfsrCtxFolderFails (fun _ => 3) 0).2 = 1 ∧
    dfsrCollectError dfsrCtxFolderFails (fun _ => 3) 0 = true ∧
    (collectConnection dfsrCtxAllOk).2 = false ∧
    (collectFolder dfsrCtxAllOk).2 = false ∧
    (collectVolume dfsrCtxAllOk).2 = false ∧
    dfsrCollectError dfsrCtxAllOk (fun _ => 3)
      ((dfsrCollect dfsrCtxFolderFails (fun _ => 3) 0).2) = true := by
  decide

/-- Connection data samples are never meta-samples. -/
theorem connectionSamples_filter_meta (dst : List PerflibDFSRConnection)
    (d : DfsrDesc) (name : String)
    (hd : d = DfsrDesc.dfsrScrapeDurationDesc ∨ d = DfsrDesc.dfsrScrapeSuccessDesc) :
    (dst.flatMap connectionSamples).filter
      (fun s => s.desc == d && s.labelValue == name) = [] := by
  induction dst with
  | nil => rfl
  | cons c rest ih =>
    rw [List.flatMap_cons, List.filter_append, ih]
    rcases hd with h | h <;> subst h <;> simp [connectionSamples]

/-- Folder data samples are never meta-samples. -/
theorem folderSamples_filter_meta (dst : List PerflibDFSRFolder)
    (d : DfsrDesc) (name : String)
    (hd : d = DfsrDesc.dfsrScrapeDurationDesc ∨ d = DfsrDesc.dfsrScrapeSuccessDesc) :
    (dst.flatMap folderSamples).filter
      (fun s => s.desc == d && s.labelValue == name) = [] := by
  induction dst with
  | nil => rfl
  | cons c rest ih =>
    rw [List.flatMap_cons, List.filter_append, ih]
    rcases hd with h | h <;> subst h <;> simp [folderSamples]

/-- Volume data samples are never meta-samples. -/
theorem volumeSamples_filter_meta (dst : List PerflibDFSRVolume)
    (d : DfsrDesc) (name : String)
    (hd : d = DfsrDesc.dfsrScrapeDurationDesc ∨ d = DfsrDesc.dfsrScrapeSuccessDesc) :
    (dst.flatMap volumeSamples).filter
      (fun s => s.desc == d && s.labelValue == name) = [] := by
  induction dst with
  | nil => rfl
  | cons c rest ih =>
    rw [List.flatMap_cons, List.filter_append, ih]
    rcases hd with h | h <;> subst h <;> simp [volumeSamples]

/-- Whatever the scrape context, `collectConnection` sends no meta-samples. -/
theorem collectConnection_filter_meta (ctx : DFSRScrapeContext) (d : DfsrDesc)
    (name : String)
    (hd : d = DfsrDesc.dfsrScrapeDurationDesc ∨ d = DfsrDesc.dfsrScrapeSuccessDesc) :
    (collectConnection ctx).1.filter
      (fun s => s.desc == d && s.labelValue == name) = [] := by
  rcases hc : ctx.connections with e | dst
  · simp [collectConnection, hc]
  · simp [collectConnection, hc, connectionSamples_filter_meta dst d name hd]

/-- Whatever the scrape context, `collectFolder` sends no meta-samples. -/
theorem collectFolder_filter_meta (ctx : DFSRScrapeContext) (d : DfsrDesc)
    (name : String)
    (hd : d = DfsrDesc.dfsrScrapeDurationDesc ∨ d = DfsrDesc.dfsrScrapeSuccessDesc) :
    (collectFolder ctx).1.filter
      (fun s => s.desc == d && s.labelValue == name) = [] := by
  rcases hc : ctx.folders with e | dst
  · simp [collectFolder, hc]
  · simp [collectFolder, hc, folderSamples_filter_meta dst d name hd]

/-- Whatever the scrape context, `collectVolume` sends no meta-samples. -/
theorem collectVolume_filter_meta (ctx : DFSRScrapeContext) (d : DfsrDesc)
    (name : String)
    (hd : d = DfsrDesc.dfsrScrapeDurationDesc ∨ d = DfsrDesc.dfsrScrapeSuccessDesc) :
    (collectVolume ctx).1.filter
      (fun s => s.desc == d && s.labelValue == name) = [] := by
  rcases hc : ctx.volumes with e | dst
  · simp [collectVolume, hc]
  · simp [collectVolume, hc, volumeSamples_filter_meta dst d name hd]

/-- C4. In every scrape, each named child of the DFSR collector produces
exactly one duration meta-sample and exactly one success meta-sample
labeled with the child's name, regardless of whether the child's
collection function failed, and the success value is 1 on success and 0
on failure. -/
theorem dfsr_child_meta_samples_exactly_once (ctx : DFSRScrapeContext)
    (durations : String → Nat) (failures0 : Nat) (name : String)
    (fn : DFSRScrapeContext → List DfsrSample × Bool)
    (hmem : (name, fn) ∈ dfsrChildCollectors) :
    (dfsrCollect ctx durations failures0).1.filter
        (fun s => s.desc == DfsrDesc.dfsrScrapeDurationDesc && s.labelValue == name) =
      [⟨.dfsrScrapeDurationDesc, .gauge, durations name, name⟩] ∧
    (dfsrCollect ctx durations failures0).1.filter
        (fun s => s.desc == DfsrDesc.dfsrScrapeSuccessDesc && s.labelValue == name) =
      [⟨.dfsrScrapeSuccessDesc, .gauge, if (fn ctx).2 then 0 else 1, name⟩] := by
  simp only [dfsrChildCollectors, List.mem_cons, List.not_mem_nil, or_false,
    Prod.mk.injEq] at hmem
  rcases hmem with ⟨h1, h2⟩ | ⟨h1, h2⟩ | ⟨h1, h2⟩ <;> subst h1 <;> subst h2 <;>
    refine ⟨?_, ?_⟩ <;>
    simp [dfsrCollect, dfsrChildCollectors, dfsrExecute, List.filter_append,
      collectConnection_filter_meta ctx _ _ (Or.inl rfl),
      collectConnection_filter_meta ctx _ _ (Or.inr rfl),
      collectFolder_filter_meta ctx _ _ (Or.inl rfl),
      collectFolder_filter_meta ctx _ _ (Or.inr rfl),
      collectVolume_filter_meta ctx _ _ (Or.inl rfl),
      collectVolume_filter_meta ctx _ _ (Or.inr rfl)]

/-- Witness for C4: the folder child of a concrete all-success scrape gets
exactly its one duration and one success meta-sample pair. -/
theorem dfsr_child_meta_samples_exactly_once_witness :
    ("folder", collectFolder) ∈ dfsrChildCollectors ∧
    ((dfsrCollect dfsrCtxAllOk (fun _ => 7) 0).1.filter
        (fun s => s.desc == DfsrDesc.dfsrScrapeDurationDesc && s.labelValue == "folder") =
      [⟨.dfsrScrapeDurationDesc, .gauge, 7, "folder"⟩] ∧
     (dfsrCollect dfsrCtxAllOk (fun _ => 7) 0).1.filter
        (fun s => s.desc == DfsrDesc.dfsrScrapeSuccessDesc && s.labelValue == "folder") =
      [⟨.dfsrScrapeSuccessDesc, .gauge,
        if (collectFolder dfsrCtxAllOk).2 then 0 else 1, "folder"⟩]) :=
  ⟨by simp [dfsrChildCollectors],
    dfsr_child_meta_samples_exactly_once dfsrCtxAllOk (fun _ => 7) 0 "folder"
      collectFolder (by simp [dfsrChildCollectors])⟩

/-! ### Claim theorems for the network and container collectors -/

/-- A mangled name is empty exactly when the name itself is. -/
theorem mangleNetworkName_eq_nil (n : List Char) :
    mangleNetworkName n = [] ↔ n = [] := by
  simp [mangleNetworkName]

/-- Counterexample to C5 as stated: with whitelist `.*` and blacklist
`^Loopback$`, a row whose name is empty matches the whitelist in full and
does not match the blacklist, so the claim's iff says it is included —
but the collector emits nothing for it, because of the additional
empty-mangled-name skip at the top of the row loop. -/
theorem network_filter_empty_name_counterexample :
    Regex.rmatch (Regex.star Regex.dot) ([] : List Char) = true ∧
    Regex.rmatch nicBlacklistLoopback ([] : List Char) = false ∧
    networkCollectRows (Regex.star Regex.dot) nicBlacklistLoopback
      [emptyNameNic] = [] := by
  decide

/-- C5 (amended): a row is included exactly when its name matches the
whitelist in full, does not match the blacklist in full, and is nonempty
(the mangled name is empty only for an empty name); in particular with
whitelist `.+` and blacklist `^Loopback$`, the row named `Loopback`
contributes nothing and the row named `Ethernet0` contributes exactly its
eleven samples. -/
theorem network_filter_included_iff (wl bl : Regex) (dst : List NetIface) :
    networkCollectRows wl bl dst =
      dst.flatMap (fun nic =>
        if wl.rmatch nic.Name && !bl.rmatch nic.Name &&
            nic.Name != ([] : List Char) then
          nicSamples nic (mangleNetworkName nic.Name)
        else []) ∧
    networkCollectRows nicWhitelistDefault nicBlacklistLoopback
        [loopbackNic, ethernetNic] =
      nicSamples ethernetNic (mangleNetworkName ethernetNic.Name) := by
  constructor
  · unfold networkCollectRows
    refine congrArg dst.flatMap (funext fun nic => ?_)
    by_cases hn : nic.Name = []
    · rcases hw : wl.rmatch nic.Name <;> rcases hb : bl.rmatch nic.Name <;>
        simp [hw, hb, hn, mangleNetworkName_eq_nil]
    · rcases hw : wl.rmatch nic.Name <;> rcases hb : bl.rmatch nic.Name <;>
        simp [hw, hb, hn, (mangleNetworkName_eq_nil nic.Name).not.mpr hn]
  · decide

/-- C8. An input with no rows, an input in which every row is rejected by
the instance filter, and a container query that returns zero containers
are all successes with zero samples, not errors. -/
theorem empty_input_success_zero_samples :
    (∀ wl bl : Regex, networkCollect wl bl (Except.ok []) = Except.ok []) ∧
    (∀ (wl bl : Regex) (dst : List NetIface),
        (∀ nic ∈ dst, bl.rmatch nic.Name = true ∨ wl.rmatch nic.Name = false) →
        networkCollect wl bl (Except.ok dst) = Except.ok []) ∧
    containerCollect (Except.ok []) = Except.ok [] := by
  refine ⟨fun wl bl => rfl, ?_, rfl⟩
  intro wl bl dst h
  have hrows : ∀ l : List NetIface,
      (∀ nic ∈ l, bl.rmatch nic.Name = true ∨ wl.rmatch nic.Name = false) →
      networkCollectRows wl bl l = [] := by
    intro l
    induction l with
    | nil => intro _; rfl
    | cons nic rest ih =>
      intro hl
      have h1 := hl nic (List.mem_cons_self nic rest)
      have h2 := ih (fun x hx => hl x (List.mem_cons_of_mem _ hx))
      simp only [networkCollectRows, List.flatMap_cons] at h2 ⊢
      rw [h2, List.append_nil]
      rcases h1 with h1 | h1 <;> simp [h1]
  simp only [networkCollect, hrows dst h]

/-- Witness for C8: the single row `Loopback` is blacklisted, and the
collect call succeeds with zero samples. -/
theorem empty_input_success_zero_samples_witness :
    nicBlacklistLoopback.rmatch loopbackNic.Name = true ∧
    networkCollect nicWhitelistDefault nicBlacklistLoopback
        (Except.ok [loopbackNic]) = Except.ok [] :=
  ⟨by decide,
    empty_input_success_zero_samples.2.1 nicWhitelistDefault nicBlacklistLoopback
      [loopbackNic]
      (by
        intro nic hn
        rw [List.mem_singleton] at hn
        subst hn
        exact Or.inl (by decide))⟩

end WmiExporter
